import Mathlib

/-!
Verification of the client-side authentication/session layer of the
NSDC-Hackathon frontend (React).  The definitions below are a shallow
embedding of:

* the axios HTTP client adapter (`src/unnamed/part_000`, lines 402-461):
  request interceptor adding the bearer header, response interceptor
  classifying error statuses;
* the auth context (`src/frontend/src/context/AuthContext.jsx`):
  `login` success path, `logout`, `getCurrentUser` failure path,
  `dashboardRoute`, `isAuthenticated`, `isStudent`/`isRecruiter`/`isMentor`;
* the role-gated router (`src/unnamed/part_002`, `AppRoutes`): the loading
  guard, the five declared routes and the catch-all, modelled as a single
  route-resolution step plus fuelled chasing of redirect chains.

State is explicit: the two persisted localStorage entries, the in-memory
React `user` state, the `loading` flag, and the `window.location.href`
assignments made by the adapter.  Navigation performed through `navigate(...)`
is returned as the second component of each operation's result.
-/

/-- The in-memory user object built by `login` / stored in React state.
`mongoId` embeds the source's `_id` field (set to `user_id` as well). -/
structure User where
  id : String
  email : String
  role : String
  mongoId : String
deriving DecidableEq

/-- The whole client-side state the auth layer touches:
`access_token` and `user_role` are the two persisted localStorage entries
(`none` = absent), `user` is the React state held by `AuthProvider`,
`loading` its restoration flag, and `href` records an assignment to
`window.location.href` made by the response interceptor (`none` = no
assignment). -/
structure ClientState where
  access_token : Option String
  user_role : Option String
  user : Option User
  loading : Bool
  href : Option String
deriving DecidableEq

/-- JavaScript `a || b` on an optional string: `undefined` and the empty
string are falsy and fall through to the fallback. -/
def jsOr (d : Option String) (fb : String) : String :=
  match d with
  | some s => if s = "" then fb else s
  | none => fb

/-- Request interceptor (`src/unnamed/part_000`, lines 414-425): the
`Authorization` header attached to an outgoing request, present exactly
when a token is persisted. -/
def requestAuthHeader (s : ClientState) : Option String :=
  match s.access_token with
  | some tok => some ("Bearer " ++ tok)
  | none => none

/-- Response interceptor error branch (`src/unnamed/part_000`, lines
432-458).  `status = none` models a request that got no response (network
error), `detail` the server's `data.detail` field.  Returns the state after
the interceptor's side effects together with the toast message it shows;
in every branch the source then re-throws via `Promise.reject(error)`, so
the failure always propagates to the caller afterwards. -/
def onResponseError (status : Option Nat) (detail : Option String)
    (s : ClientState) : ClientState × String :=
  match status with
  | some st =>
    if st = 401 then
      ({ s with access_token := none, user_role := none, href := some "/login" },
        "Session expired. Please login again.")
    else if st = 403 then (s, jsOr detail "Permission denied")
    else if st = 422 then (s, "Invalid input data")
    else if st = 500 then (s, "Server error. Please try again later.")
    else (s, jsOr detail "An error occurred")
  | none => (s, "Network error. Please check your connection.")

/-- The body of a successful `/auth/login` response as destructured by
`login` in `AuthContext.jsx`. -/
structure LoginResponse where
  access_token : String
  role : String
  user_id : String
deriving DecidableEq

/-- `dashboardRoute` (`AuthContext.jsx`, lines 121-132): the switch mapping
a role string to its default route, `"/"` for anything unrecognised. -/
def dashboardRoute (role : String) : String :=
  if role = "student" then "/student-dashboard"
  else if role = "recruiter" then "/recruiter-dashboard"
  else if role = "mentor" then "/mentor-dashboard"
  else "/"

/-- The success path of `login` (`AuthContext.jsx`, lines 50-78): persist
token and role, set the user object (with `_id` duplicated from `user_id`),
and navigate to `dashboardRoute(role)`.  The navigation target is the
second component. -/
def loginSuccess (email : String) (resp : LoginResponse)
    (s : ClientState) : ClientState × String :=
  ({ s with
      access_token := some resp.access_token,
      user_role := some resp.role,
      user := some { id := resp.user_id, email := email, role := resp.role,
                     mongoId := resp.user_id } },
    dashboardRoute resp.role)

/-- `logout` (`AuthContext.jsx`, lines 113-119): remove both persisted
entries, clear the user, navigate to `"/"`. -/
def logout (s : ClientState) : ClientState × String :=
  ({ s with access_token := none, user_role := none, user := none }, "/")

/-- The catch/finally path of `getCurrentUser` (`AuthContext.jsx`, lines
34-48) when the `/auth/me` fetch fails: both persisted entries removed, user
cleared, `loading` set to false. -/
def getCurrentUserFailure (s : ClientState) : ClientState :=
  { s with access_token := none, user_role := none, user := none,
           loading := false }

/-- The state of `AuthProvider` right after mount when persisted credentials
exist (`AuthContext.jsx`, lines 22-31): token and role hint loaded, no user
yet, `loading` still true while `getCurrentUser` is in flight. -/
def restorationStart (t r : String) : ClientState :=
  { access_token := some t, user_role := some r, user := none,
    loading := true, href := none }

/-- `isAuthenticated` (`AuthContext.jsx`, lines 134-136):
`user !== null && localStorage.getItem('access_token') !== null`. -/
def isAuthenticated (s : ClientState) : Bool :=
  s.user.isSome && s.access_token.isSome

/-- `isStudent` (`AuthContext.jsx`, line 138): `user?.role === 'student'`. -/
def isStudent (s : ClientState) : Bool :=
  match s.user with
  | some u => u.role == "student"
  | none => false

/-- `isRecruiter` (`AuthContext.jsx`, line 139). -/
def isRecruiter (s : ClientState) : Bool :=
  match s.user with
  | some u => u.role == "recruiter"
  | none => false

/-- `isMentor` (`AuthContext.jsx`, line 140). -/
def isMentor (s : ClientState) : Bool :=
  match s.user with
  | some u => u.role == "mentor"
  | none => false

/-- The distinct views `AppRoutes` can render. -/
inductive View
  | loadingView
  | loginPage
  | studentDashboard
  | recruiterDashboard
  | mentorDashboard
deriving DecidableEq

/-- Outcome of matching one route: render a view, or a `<Navigate to=p>`. -/
inductive RouteResult
  | render (v : View)
  | redirect (p : String)
deriving DecidableEq

/-- One resolution step of the `<Routes>` block of `AppRoutes`
(`src/unnamed/part_002`, lines 23-150), for a given requested path, after
the loading guard: the five declared routes and the `"*"` catch-all. -/
def routeStep (s : ClientState) (path : String) : RouteResult :=
  if path = "/login" then
    if !(isAuthenticated s) then .render .loginPage else .redirect "/"
  else if path = "/student-dashboard" then
    if isAuthenticated s && isStudent s then .render .studentDashboard
    else .redirect "/login"
  else if path = "/recruiter-dashboard" then
    if isAuthenticated s && isRecruiter s then .render .recruiterDashboard
    else .redirect "/login"
  else if path = "/mentor-dashboard" then
    if isAuthenticated s && isMentor s then .render .mentorDashboard
    else .redirect "/login"
  else if path = "/" then
    if isAuthenticated s then
      if isStudent s then .redirect "/student-dashboard"
      else if isRecruiter s then .redirect "/recruiter-dashboard"
      else if isMentor s then .redirect "/mentor-dashboard"
      else .redirect "/login"
    else .redirect "/login"
  else .redirect "/"

/-- `AppRoutes` (`src/unnamed/part_002`, lines 8-151): the loading guard
(lines 12-21) renders the neutral loading view before any route matching;
otherwise one route-resolution step runs. -/
def appRoutes (s : ClientState) (path : String) : RouteResult :=
  if s.loading then .render .loadingView else routeStep s path

/-- Chase the redirect chain produced by `appRoutes` for at most `fuel`
steps (the session state does not change while `<Navigate>` components
chain).  `some (p, v)` means view `v` is rendered at path `p`; `none`
means no view was rendered within `fuel` steps. -/
def resolveN (fuel : Nat) (s : ClientState) (path : String) :
    Option (String × View) :=
  match fuel with
  | 0 => none
  | fuel + 1 =>
    match appRoutes s path with
    | .render v => some (path, v)
    | .redirect p => resolveN fuel s p

/-- Unfolding lemma for one step of redirect chasing. -/
theorem resolveN_succ (fuel : Nat) (s : ClientState) (path : String) :
    resolveN (fuel + 1) s path =
      match appRoutes s path with
      | .render v => some (path, v)
      | .redirect p => resolveN fuel s p := rfl

/-- The dashboard view belonging to a role string (statement helper). -/
def dashboardView (role : String) : View :=
  if role = "student" then .studentDashboard
  else if role = "recruiter" then .recruiterDashboard
  else if role = "mentor" then .mentorDashboard
  else .loginPage

/-- A concrete logged-in student state, used as the base point of several
concrete evaluations. -/
def sEx : ClientState :=
  { access_token := some "tokA", user_role := some "student",
    user := some { id := "u1", email := "alex@example.com", role := "student",
                   mongoId := "u1" },
    loading := false, href := none }

/-- Claim C1 counterexample: on a 401 the response interceptor clears the
two persisted entries and sets the location, but the in-memory identity is
not cleared before the error propagates — starting from the concrete
logged-in state `sEx`, after the 401 branch the user is still present. -/
theorem c1_counterexample :
    (onResponseError (some 401) none sEx).1.access_token = none ∧
    (onResponseError (some 401) none sEx).1.user_role = none ∧
    (onResponseError (some 401) none sEx).1.user ≠ none :=
  ⟨rfl, rfl, Option.some_ne_none _⟩

/-- Claim C1 (amended): for every request that receives a 401 response the
adapter, before propagating the error, clears the persisted `access_token`
and `user_role` and sets the browser location to `/login` (a full page load,
which is what eventually discards the in-memory state); it does not itself
modify the in-memory Session identity, which is unchanged when the error
propagates. -/
theorem c1_amended_unauthorized (s : ClientState) (d : Option String) :
    onResponseError (some 401) d s =
      ({ s with access_token := none, user_role := none,
                href := some "/login" },
        "Session expired. Please login again.") ∧
    (onResponseError (some 401) d s).1.user = s.user :=
  ⟨rfl, rfl⟩

/-- Claim C3: a successful `login` persists the returned token under
`access_token` and the role under `user_role`, sets the in-memory identity
to `{id, email, role}` (plus the duplicated `_id`), and navigates to the
role's default dashboard; in particular the
`login("alex@example.com","password123")` scenario returning
`{access_token:"tok1", role:"student", user_id:"u1"}` yields the persisted
pair, an authenticated student session and navigation to
`/student-dashboard`. -/
theorem c3_login_success (s : ClientState) (email : String)
    (resp : LoginResponse) :
    (loginSuccess email resp s).1.access_token = some resp.access_token ∧
    (loginSuccess email resp s).1.user_role = some resp.role ∧
    (loginSuccess email resp s).1.user =
      some { id := resp.user_id, email := email, role := resp.role,
             mongoId := resp.user_id } ∧
    (loginSuccess email resp s).2 = dashboardRoute resp.role ∧
    (loginSuccess "alex@example.com"
        { access_token := "tok1", role := "student", user_id := "u1" }
        s).1.access_token = some "tok1" ∧
    (loginSuccess "alex@example.com"
        { access_token := "tok1", role := "student", user_id := "u1" }
        s).1.user_role = some "student" ∧
    isAuthenticated (loginSuccess "alex@example.com"
        { access_token := "tok1", role := "student", user_id := "u1" }
        s).1 = true ∧
    isStudent (loginSuccess "alex@example.com"
        { access_token := "tok1", role := "student", user_id := "u1" }
        s).1 = true ∧
    (loginSuccess "alex@example.com"
        { access_token := "tok1", role := "student", user_id := "u1" }
        s).2 = "/student-dashboard" := by
  exact ⟨rfl, rfl, rfl, rfl, rfl, rfl, rfl, rfl, rfl⟩

/-- Claim C4 counterexample: a login that resolves after a logout is not
discarded — from the logged-in state `sEx`, performing `logout` and then
letting a pending login resolve leaves an authenticated session with the
late login's token persisted, not `Anonymous`. -/
theorem c4_counterexample :
    (loginSuccess "eve@example.com"
        { access_token := "tok2", role := "student", user_id := "u2" }
        (logout sEx).1).1.user ≠ none ∧
    (loginSuccess "eve@example.com"
        { access_token := "tok2", role := "student", user_id := "u2" }
        (logout sEx).1).1.access_token = some "tok2" :=
  ⟨Option.some_ne_none _, rfl⟩

/-- Claim C4 (amended): there is no epoch/guard — the `login` success
handler runs unconditionally, so if a pending login resolves after a
`logout` the final state is the login's authenticated session
(last-writer-wins): its token and role are persisted, its user object is
set, and navigation goes to that role's dashboard. -/
theorem c4_amended_late_login_wins (s : ClientState) (email : String)
    (resp : LoginResponse) :
    (loginSuccess email resp (logout s).1).1.user =
      some { id := resp.user_id, email := email, role := resp.role,
             mongoId := resp.user_id } ∧
    (loginSuccess email resp (logout s).1).1.access_token =
      some resp.access_token ∧
    (loginSuccess email resp (logout s).1).1.user_role = some resp.role ∧
    (loginSuccess email resp (logout s).1).2 = dashboardRoute resp.role :=
  ⟨rfl, rfl, rfl, rfl⟩

/-- Claim C5: a 403 response leaves the whole session state unchanged, the
server-supplied `detail` message (when non-empty, as the source's `||`
falls back on the empty string) is surfaced, and a subsequent request still
carries the same bearer header. -/
theorem c5_forbidden_frame (s : ClientState) (d : Option String)
    (m : String) (hm : m ≠ "") :
    (onResponseError (some 403) d s).1 = s ∧
    (onResponseError (some 403) (some m) s).2 = m ∧
    requestAuthHeader (onResponseError (some 403) d s).1 =
      requestAuthHeader s := by
  refine ⟨rfl, ?_, rfl⟩
  simp [onResponseError, jsOr, hm]

/-- Witness for C5 at a concrete state and a concrete badge-gate message. -/
theorem c5_forbidden_frame_witness :
    (onResponseError (some 403) none sEx).1 = sEx ∧
    (onResponseError (some 403)
        (some "You need at least 3 badges for mock interviews. Current: 1")
        sEx).2 =
      "You need at least 3 badges for mock interviews. Current: 1" ∧
    requestAuthHeader (onResponseError (some 403) none sEx).1 =
      requestAuthHeader sEx :=
  c5_forbidden_frame sEx none
    "You need at least 3 badges for mock interviews. Current: 1" (by decide)

/-- Claim C6: `dashboardRoute` is total on role strings — each of the three
known roles maps to its dashboard, and every other string maps to `"/"`
(the route `logout` also navigates to, i.e. the public entry route). -/
theorem c6_dashboardRoute_total (r : String) (h1 : r ≠ "student")
    (h2 : r ≠ "recruiter") (h3 : r ≠ "mentor") :
    dashboardRoute "student" = "/student-dashboard" ∧
    dashboardRoute "recruiter" = "/recruiter-dashboard" ∧
    dashboardRoute "mentor" = "/mentor-dashboard" ∧
    dashboardRoute r = "/" := by
  refine ⟨by decide, by decide, by decide, ?_⟩
  simp [dashboardRoute, h1, h2, h3]

/-- Witness for C6 at the unrecognised role string field value "admin". -/
theorem c6_dashboardRoute_total_witness :
    dashboardRoute "student" = "/student-dashboard" ∧
    dashboardRoute "recruiter" = "/recruiter-dashboard" ∧
    dashboardRoute "mentor" = "/mentor-dashboard" ∧
    dashboardRoute "admin" = "/" :=
  c6_dashboardRoute_total "admin" (by decide) (by decide) (by decide)

/-- Claim C8: `isAuthenticated` is true iff the in-memory user is present
and a persisted token is present; clearing either one alone makes it
false. -/
theorem c8_isAuthenticated_iff (s : ClientState) :
    (isAuthenticated s = true ↔ (s.user ≠ none ∧ s.access_token ≠ none)) ∧
    isAuthenticated { s with user := none } = false ∧
    isAuthenticated { s with access_token := none } = false := by
  refine ⟨?_, ?_, ?_⟩ <;>
    simp [isAuthenticated, Bool.and_eq_true, Option.isSome_iff_ne_none]

/-- Claim C9: `logout` is a total operation (it cannot fail in the model:
it is a pure total function) that clears both persisted entries and the
identity from any state and navigates to `"/"`, and it is idempotent:
running it twice gives exactly the same state and navigation target as
running it once. -/
theorem c9_logout_idempotent (s : ClientState) :
    (logout s).1.access_token = none ∧
    (logout s).1.user_role = none ∧
    (logout s).1.user = none ∧
    (logout s).2 = "/" ∧
    logout (logout s).1 = logout s :=
  ⟨rfl, rfl, rfl, rfl, rfl⟩

/-- Claim C2: an authenticated user whose role is one of the three known
roles, requesting a protected dashboard route of a different role, ends up
(after the router's redirect chain through `/login` and `/`) with the
user's own role's default dashboard rendered at its route. -/
theorem c2_wrong_role_redirect (tok : String) (urole hrefv : Option String)
    (uid uem umid role path : String)
    (hrole : role = "student" ∨ role = "recruiter" ∨ role = "mentor")
    (hpath : path = "/student-dashboard" ∨ path = "/recruiter-dashboard" ∨
      path = "/mentor-dashboard")
    (hdiff : path ≠ dashboardRoute role) :
    resolveN 4
      { access_token := some tok, user_role := urole,
        user := some { id := uid, email := uem, role := role,
                       mongoId := umid },
        loading := false, href := hrefv } path
      = some (dashboardRoute role, dashboardView role) := by
  rcases hrole with h | h | h <;> subst h <;>
    rcases hpath with h | h | h <;> subst h <;>
    first
      | exact absurd rfl hdiff
      | rfl

/-- Witness for C2: a concrete authenticated recruiter requesting
`/student-dashboard` ends at the recruiter dashboard. -/
theorem c2_wrong_role_redirect_witness :
    resolveN 4
      { access_token := some "tokB", user_role := some "recruiter",
        user := some { id := "u2", email := "bea@example.com",
                       role := "recruiter", mongoId := "u2" },
        loading := false, href := none } "/student-dashboard"
      = some (dashboardRoute "recruiter", dashboardView "recruiter") :=
  c2_wrong_role_redirect "tokB" (some "recruiter") none "u2"
    "bea@example.com" "u2" "recruiter" "/student-dashboard"
    (Or.inr (Or.inl rfl)) (Or.inl rfl) (by decide)

/-- The anonymous, settled state: no persisted entries, no user, not
loading.  This is exactly `getCurrentUserFailure (restorationStart t r)`
for any `t`, `r`. -/
def sAnon : ClientState :=
  { access_token := none, user_role := none, user := none,
    loading := false, href := none }

/-- If chasing the redirect chain renders a view `v` at path `p`, then the
route table itself renders `v` at `p` in one step. -/
theorem resolveN_render_of_some (n : Nat) (s : ClientState) :
    ∀ path p v, resolveN n s path = some (p, v) →
      appRoutes s p = RouteResult.render v := by
  induction n with
  | zero =>
    intro path p v h
    exact absurd h (by simp [resolveN])
  | succ n ih =>
    intro path p v h
    rw [resolveN_succ] at h
    cases hh : appRoutes s path with
    | render v' =>
      rw [hh] at h
      simp only [Option.some.injEq, Prod.mk.injEq] at h
      obtain ⟨hp, hv⟩ := h
      subst hp
      subst hv
      exact hh
    | redirect q =>
      rw [hh] at h
      exact ih q p v h

/-- In the anonymous settled state the only view a route can render is the
login page. -/
theorem appRoutes_anon_render (p : String) (v : View)
    (h : appRoutes sAnon p = RouteResult.render v) : v = View.loginPage := by
  by_cases h1 : p = "/login"
  · simp_all [appRoutes, routeStep, isAuthenticated, isStudent, isRecruiter,
      isMentor, sAnon]
  · by_cases h2 : p = "/student-dashboard"
    · simp_all [appRoutes, routeStep, isAuthenticated, isStudent,
        isRecruiter, isMentor, sAnon]
    · by_cases h3 : p = "/recruiter-dashboard"
      · simp_all [appRoutes, routeStep, isAuthenticated, isStudent,
          isRecruiter, isMentor, sAnon]
      · by_cases h4 : p = "/mentor-dashboard"
        · simp_all [appRoutes, routeStep, isAuthenticated, isStudent,
            isRecruiter, isMentor, sAnon]
        · by_cases h5 : p = "/"
          · simp_all [appRoutes, routeStep, isAuthenticated, isStudent,
              isRecruiter, isMentor, sAnon]
          · simp_all [appRoutes, routeStep, isAuthenticated, isStudent,
              isRecruiter, isMentor, sAnon]

/-- Claim C7: while session restoration is pending (`loading` true) the
router renders the neutral loading view for every requested route; and if
the `auth/me` restoration fetch fails, no authenticated-only dashboard view
is rendered at any point of the cycle — neither during the pending phase
nor, for any amount of redirect chasing, in the cleared state the failure
leaves behind. -/
theorem c7_restoring_never_protected (t r path : String) (n : Nat)
    (pv : String × View) :
    appRoutes (restorationStart t r) path =
      RouteResult.render View.loadingView ∧
    (resolveN n (getCurrentUserFailure (restorationStart t r)) path =
        some pv →
      pv.2 ≠ View.studentDashboard ∧ pv.2 ≠ View.recruiterDashboard ∧
        pv.2 ≠ View.mentorDashboard) := by
  constructor
  · rfl
  · intro h
    obtain ⟨p, v⟩ := pv
    have h' : resolveN n sAnon path = some (p, v) := h
    have hv := appRoutes_anon_render p v
      (resolveN_render_of_some n sAnon path p v h')
    subst hv
    exact ⟨fun hc => View.noConfusion hc, fun hc => View.noConfusion hc,
      fun hc => View.noConfusion hc⟩

/-- A concrete authenticated state whose role string is outside the known
role set: token present, user present, `role = "admin"`. -/
def sBadRole : ClientState :=
  { access_token := some "tokZ", user_role := some "admin",
    user := some { id := "u9", email := "zoe@example.com", role := "admin",
                   mongoId := "u9" },
    loading := false, href := none }

/-- In the unrecognised-role state the redirect chain from `/` (and from
`/login`) never renders a view, for any amount of fuel: the two routes
redirect to each other forever. -/
theorem resolveN_badRole_loop (n : Nat) :
    resolveN n sBadRole "/" = none ∧ resolveN n sBadRole "/login" = none := by
  induction n with
  | zero => exact ⟨rfl, rfl⟩
  | succ n ih =>
    constructor
    · rw [resolveN_succ]
      exact ih.2
    · rw [resolveN_succ]
      exact ih.1

/-- Claim C10 counterexample: an authenticated user with the unrecognised
role `"admin"` requesting `/` never reaches a rendered view — the router
cycles between `/` and `/login` forever. -/
theorem c10_counterexample :
    ¬ ∃ pv : String × View, ∃ n : Nat,
      resolveN n sBadRole "/" = some pv := by
  rintro ⟨pv, n, h⟩
  rw [(resolveN_badRole_loop n).1] at h
  exact Option.noConfusion h

/-- Each of the three role predicates excludes the other two. -/
theorem role_predicates_exclusive (s : ClientState) :
    (isStudent s = true → isRecruiter s = false ∧ isMentor s = false) ∧
    (isRecruiter s = true → isStudent s = false ∧ isMentor s = false) ∧
    (isMentor s = true → isStudent s = false ∧ isRecruiter s = false) := by
  cases hu : s.user with
  | none => simp [isStudent, isRecruiter, isMentor, hu]
  | some u =>
    simp only [isStudent, isRecruiter, isMentor, hu, beq_iff_eq,
      beq_eq_false_iff_ne]
    refine ⟨fun h => ?_, fun h => ?_, fun h => ?_⟩ <;> rw [h] <;>
      exact ⟨by decide, by decide⟩

/-- Claim C10 (amended): the redirect chain reaches a rendered view within
four routing steps from every requested route whenever the session is not
authenticated or the authenticated role is one of the three recognised
roles; only an authenticated user with a role outside that set cycles
forever between `/` and `/login`. -/
theorem c10_amended_known_roles_terminate (s : ClientState) (path : String)
    (hgood : isAuthenticated s = false ∨ isStudent s = true ∨
      isRecruiter s = true ∨ isMentor s = true) :
    (resolveN 4 s path).isSome = true := by
  have hex := role_predicates_exclusive s
  by_cases hl : s.loading = true
  · simp [resolveN, appRoutes, hl]
  · by_cases hA : isAuthenticated s = true <;>
      rcases hgood with h | h | h | h <;>
      by_cases h1 : path = "/login" <;>
      by_cases h2 : path = "/student-dashboard" <;>
      by_cases h3 : path = "/recruiter-dashboard" <;>
      by_cases h4 : path = "/mentor-dashboard" <;>
      by_cases h5 : path = "/" <;>
      simp_all [resolveN, appRoutes, routeStep]

/-- Witness for the amended C10: the anonymous settled state resolves
`/student-dashboard` to a rendered view within four steps. -/
theorem c10_amended_witness :
    (resolveN 4 sAnon "/student-dashboard").isSome = true :=
  c10_amended_known_roles_terminate sAnon "/student-dashboard" (Or.inl rfl)
